import Mathlib

/-!
Shallow embedding of the scroll-driven story-map animation code
(scroll tracker, choreography dispatchers, viewpoint and time-slider
interpolators, layer-visibility toggling) and proofs of the stated
properties.  JavaScript numbers are modelled as exact rationals (`ℚ`),
`Date` values by their millisecond timestamps, `null`/`undefined` by
`Option`, and the mutable slider / docking state by explicit records.
-/

namespace ScrollyStory

/-- Spatial reference of a viewpoint's target geometry
(`{latestWkid, wkid}`). -/
structure SpatialReference where
  latestWkid : Int
  wkid : Int
deriving Repr, DecidableEq, Inhabited

/-- Target geometry of a viewpoint: spatial reference plus the four
bounding coordinates `xmin`, `ymin`, `xmax`, `ymax`. -/
structure TargetGeometry where
  spatialReference : SpatialReference
  xmin : ℚ
  ymin : ℚ
  xmax : ℚ
  ymax : ℚ
deriving Repr, DecidableEq, Inhabited

/-- Viewpoint descriptor `{rotation, scale, targetGeometry}` as stored in
the choreography JSON. -/
structure ViewpointData where
  rotation : ℚ
  scale : ℚ
  targetGeometry : TargetGeometry
deriving Repr, DecidableEq, Inhabited

/-- The local linear-blend helper used by both interpolators:
`(fromVal, toVal) => fromVal + (toVal - fromVal) * progress`. -/
def interp (fromVal toVal progress : ℚ) : ℚ :=
  fromVal + (toVal - fromVal) * progress

/-- The viewpoint object literal built inside `interpolateViewpoint`
(scrollAnimator.js lines 61-74): rotation, scale and the four bounding
coordinates are linearly blended, the spatial reference is copied from
the current viewpoint. -/
def interpolateViewpointData (currentViewpoint nextViewpoint : ViewpointData)
    (progress : ℚ) : ViewpointData :=
  { rotation := interp currentViewpoint.rotation nextViewpoint.rotation progress
    scale := interp currentViewpoint.scale nextViewpoint.scale progress
    targetGeometry :=
      { spatialReference :=
          { latestWkid := currentViewpoint.targetGeometry.spatialReference.latestWkid
            wkid := currentViewpoint.targetGeometry.spatialReference.wkid }
        xmin := interp currentViewpoint.targetGeometry.xmin nextViewpoint.targetGeometry.xmin progress
        ymin := interp currentViewpoint.targetGeometry.ymin nextViewpoint.targetGeometry.ymin progress
        xmax := interp currentViewpoint.targetGeometry.xmax nextViewpoint.targetGeometry.xmax progress
        ymax := interp currentViewpoint.targetGeometry.ymax nextViewpoint.targetGeometry.ymax progress } }

/-- One slide's choreography entry, restricted to the fields the
interpolating handlers read.  Both fields are optional in the JSON. -/
structure Slide where
  viewpoint : Option ViewpointData
deriving Repr, DecidableEq, Inhabited

/-- The `mapView.goTo(targetViewpoint, {animate: true, duration: 1000})`
call issued by the viewpoint handlers. -/
structure GoToCall where
  viewpoint : ViewpointData
  animate : Bool
  duration : ℚ
deriving Repr, DecidableEq, Inhabited

/-- `interpolateViewpoint` (scrollAnimator.js lines 52-83).  The dispatcher
invokes it only when the current slide carries a `viewpoint` key, so the
current viewpoint is passed directly; `slideNext` may be absent and its
`viewpoint` field may be absent (`slideNext?.viewpoint`).  The returned
`Option GoToCall` is the `mapView.goTo` invocation: `none` means the
handler returned early without constructing a viewpoint or calling
`goTo`. -/
def interpolateViewpoint (currentViewpoint : ViewpointData)
    (slideNext : Option Slide) (progress : ℚ) : Option GoToCall :=
  match slideNext.bind Slide.viewpoint with
  | none => none
  | some nextViewpoint =>
      some { viewpoint := interpolateViewpointData currentViewpoint nextViewpoint progress
             animate := true
             duration := 1000 }

/-- One slide's `timeSlider` choreography entry
`{timeSliderStart, timeSliderEnd, timeSliderStep, timeSliderUnit}`.
The start/end date strings are modelled by their `getTime()` millisecond
timestamps. -/
structure TimeSliderData where
  timeSliderStart : ℚ
  timeSliderEnd : ℚ
  timeSliderStep : ℚ
  timeSliderUnit : String
deriving Repr, DecidableEq, Inhabited

/-- Observable state of the `arcgis-time-slider` component: its
`timeExtent` (start may be `null`) and whether playback is running
(`play`/`stop`). -/
structure TimeSliderState where
  timeExtentStart : Option ℚ
  timeExtentEnd : Option ℚ
  playing : Bool
deriving Repr, DecidableEq, Inhabited

/-- The `unitToMs` lookup table with JavaScript's `unitToMs[unit] || 0`
fallback: an unrecognized unit resolves to `0`. -/
def unitToMs (unit : String) : ℚ :=
  if unit = "milliseconds" then 1
  else if unit = "seconds" then 1000
  else if unit = "minutes" then 60 * 1000
  else if unit = "hours" then 60 * 60 * 1000
  else if unit = "days" then 24 * 60 * 60 * 1000
  else if unit = "weeks" then 7 * 24 * 60 * 60 * 1000
  else if unit = "months" then 30 * 24 * 60 * 60 * 1000
  else if unit = "years" then 365 * 24 * 60 * 60 * 1000
  else 0

/-- The resolved step size `stepMs = step * (unitToMs[unit] || 0)`. -/
def stepMsOf (slideTimeData : TimeSliderData) : ℚ :=
  slideTimeData.timeSliderStep * unitToMs slideTimeData.timeSliderUnit

/-- The raw interpolated offset
`offset = interpolatedTime - start.getTime()` (scrollAnimator.js
line 114). -/
def rawOffset (slideTimeData : TimeSliderData) (progress : ℚ) : ℚ :=
  interp slideTimeData.timeSliderStart slideTimeData.timeSliderEnd progress
    - slideTimeData.timeSliderStart

/-- The ceiling-snapped offset
`snappedOffset = Math.ceil(offset / stepMs) * stepMs` (scrollAnimator.js
line 115). -/
def snappedOffsetOf (slideTimeData : TimeSliderData) (progress : ℚ) : ℚ :=
  (⌈rawOffset slideTimeData progress / stepMsOf slideTimeData⌉ : ℚ)
    * stepMsOf slideTimeData

/-- `interpolateTimeSlider` (scrollAnimator.js lines 90-132).  Returns the
new slider state paired with the handler's return value: on the
`stepMs <= 0` path the function returns `new Date(Math.min(...))` without
touching the slider; otherwise it snaps the blended time forward to a
step boundary, clamps it, assigns `timeSlider.timeExtent = {start: null,
end: new Date(clampedTime)}`, calls `timeSlider.stop()`, and returns
nothing (`none`). -/
def interpolateTimeSlider (slideTimeData : TimeSliderData) (progress : ℚ)
    (timeSlider : TimeSliderState) : TimeSliderState × Option ℚ :=
  let start := slideTimeData.timeSliderStart
  let endTime := slideTimeData.timeSliderEnd
  let interpolatedTime := interp start endTime progress
  let stepMs := stepMsOf slideTimeData
  if stepMs ≤ 0 then (timeSlider, some (min interpolatedTime endTime))
  else
    let snappedTime := start + snappedOffsetOf slideTimeData progress
    let clampedTime := min (max snappedTime start) endTime
    ({ timeExtentStart := none
       timeExtentEnd := some clampedTime
       playing := false },
     none)

/-!
Dispatchers.  Both `scrollAnimation` (scrollAnimator.js lines 34-45) and
`slideAnimation` (slideAnimator.js lines 21-37) walk the keys of the
slide-data object, look each key up in a handler table, and invoke the
handler inside `try { ... } catch { console.error(...) }`.  A handler is
modelled abstractly as `σ → σ × Bool` over an abstract mutable context
`σ`: it returns the context state it leaves behind (partial mutations
included) and whether it threw.  The `try`/`catch` is captured by the
fold continuing regardless of the thrown flag.  Each dispatcher returns
the final context state and the list of keys whose handlers were
invoked, in order.
-/

/-- The `choreographyHandlers` table of scrollAnimator.js: only
`viewpoint` and `timeSlider` are registered; every other key maps to
nothing (`typeof choreographyHandlers[key] === "function"` fails). -/
def scrollChoreographyHandlers {σ : Type} (hViewpoint hTimeSlider : σ → σ × Bool) :
    String → Option (σ → σ × Bool) :=
  fun key =>
    if key = "viewpoint" then some hViewpoint
    else if key = "timeSlider" then some hTimeSlider
    else none

/-- Body of the `forEach` in `scrollAnimation`: invoke the key's handler
(the thrown flag is swallowed by the `catch`), record the key as
invoked. -/
def scrollDispatchStep {σ : Type} (hViewpoint hTimeSlider : σ → σ × Bool)
    (acc : σ × List String) (key : String) : σ × List String :=
  match scrollChoreographyHandlers hViewpoint hTimeSlider key with
  | some handler => ((handler acc.1).1, acc.2 ++ [key])
  | none => acc

/-- `scrollAnimation` (scrollAnimator.js lines 34-45):
`Object.keys(slideCurrent).filter(key => typeof
choreographyHandlers[key] === "function").forEach(...)` with a
`try`/`catch` around each handler call. -/
def scrollAnimation {σ : Type} (hViewpoint hTimeSlider : σ → σ × Bool)
    (slideCurrentKeys : List String) (st : σ) : σ × List String :=
  (slideCurrentKeys.filter fun key =>
      (scrollChoreographyHandlers hViewpoint hTimeSlider key).isSome).foldl
    (scrollDispatchStep hViewpoint hTimeSlider) (st, [])

/-- `NON_EMBED_EXCLUDE_KEYS = new Set(["viewpoint", "timeSlider"])`. -/
def NON_EMBED_EXCLUDE_KEYS : List String := ["viewpoint", "timeSlider"]

/-- The `choreographyHandlers` table of slideAnimator.js: `viewpoint`,
`timeSlider`, `layerVisibility` and `trackRenderer` are registered. -/
def slideChoreographyHandlers {σ : Type}
    (hViewpoint hTimeSlider hLayerVisibility hTrackRenderer : σ → σ × Bool) :
    String → Option (σ → σ × Bool) :=
  fun key =>
    if key = "viewpoint" then some hViewpoint
    else if key = "timeSlider" then some hTimeSlider
    else if key = "layerVisibility" then some hLayerVisibility
    else if key = "trackRenderer" then some hTrackRenderer
    else none

/-- Body of the `forEach` in `slideAnimation`: `if (!handler) return;`,
then `if (embedded && NON_EMBED_EXCLUDE_KEYS.has(key)) return;`, then the
`try`/`catch`-wrapped handler invocation. -/
def slideDispatchStep {σ : Type}
    (hViewpoint hTimeSlider hLayerVisibility hTrackRenderer : σ → σ × Bool)
    (embedded : Bool) (acc : σ × List String) (key : String) : σ × List String :=
  match slideChoreographyHandlers hViewpoint hTimeSlider hLayerVisibility hTrackRenderer key with
  | none => acc
  | some handler =>
      if embedded && NON_EMBED_EXCLUDE_KEYS.contains key then acc
      else ((handler acc.1).1, acc.2 ++ [key])

/-- `slideAnimation` (slideAnimator.js lines 21-37):
`Object.entries(slideData).forEach(([key, value]) => ...)`. -/
def slideAnimation {σ : Type}
    (hViewpoint hTimeSlider hLayerVisibility hTrackRenderer : σ → σ × Bool)
    (slideDataKeys : List String) (embedded : Bool) (st : σ) : σ × List String :=
  slideDataKeys.foldl
    (slideDispatchStep hViewpoint hTimeSlider hLayerVisibility hTrackRenderer embedded)
    (st, [])

/-!
Scroll tracker (part_000): panel heights, scroll bounds and progress.
-/

/-- The DOM-geometry inputs `getPanelHeight` reads from one narrative
panel: its `first`/`last` class flags, `offsetHeight`, and the computed
margins/padding. -/
structure Panel where
  isFirst : Bool
  isLast : Bool
  offsetHeight : ℚ
  marginTop : ℚ
  marginBottom : ℚ
  paddingBottom : ℚ
deriving Repr, DecidableEq, Inhabited

/-- `getPanelHeight` (part_000 lines 35-43): the effective height,
adjusted for the first/last panel margin/padding asymmetries. -/
def getPanelHeight (panel : Panel) : ℚ :=
  if panel.isFirst then panel.offsetHeight - panel.marginTop
  else if panel.isLast then panel.offsetHeight - panel.paddingBottom
  else panel.offsetHeight + panel.marginBottom + panel.marginTop

/-- `getPanelScrollBounds` (part_000 lines 47-58): start of the current
panel is `dockStartScroll` plus the heights of all prior panels; the end
adds the current panel's height.  The caller guarantees
`currentSlide < panels.length`. -/
def getPanelScrollBounds (dockStartScroll : ℚ) (panels : List Panel)
    (currentSlide : Nat) : ℚ × ℚ :=
  let panelStartScroll :=
    dockStartScroll + ((panels.take currentSlide).map getPanelHeight).sum
  let panelHeight := getPanelHeight (panels.getD currentSlide default)
  (panelStartScroll, panelStartScroll + panelHeight)

/-- `getPanelProgress` (part_000 lines 61-69):
`(scrollY - panelStartScroll) / (panelEndScroll - panelStartScroll)`
clamped by `Math.max(0, Math.min(1, progress))`. -/
def getPanelProgress (dockStartScroll : ℚ) (panels : List Panel)
    (currentSlide : Nat) (scrollY : ℚ) : ℚ :=
  let bounds := getPanelScrollBounds dockStartScroll panels currentSlide
  let progress := (scrollY - bounds.1) / (bounds.2 - bounds.1)
  max 0 (min 1 progress)

/-!
Docking observer (part_000 lines 87-114).
-/

/-- The module-level state the docking observer reads and writes:
`isDocked`, `dockStartScroll` (initially `null`), and the scroll
direction maintained by the scroll listener (`"down"` or `"up"`). -/
structure DockState where
  isDocked : Bool
  dockStartScroll : Option ℚ
  scrollDirection : String
deriving Repr, DecidableEq, Inhabited

/-- One mutation-observer callback firing: the observer reads the
target's current `docked` class and `window.scrollY`. -/
structure DockEvent where
  currentlyDocked : Bool
  currentScroll : ℚ
deriving Repr, DecidableEq, Inhabited

/-- The body of the `MutationObserver` callback in `setupDockingObserver`
(part_000 lines 91-109): on an undocked→docked transition set `isDocked`
and, only when scrolling down, capture `dockStartScroll`; on a
docked→undocked transition clear `isDocked`.  The callback never writes
`scrollDirection`. -/
def dockingObserverStep (s : DockState) (e : DockEvent) : DockState :=
  let s1 :=
    if e.currentlyDocked && !s.isDocked then
      { s with
        isDocked := true
        dockStartScroll :=
          if s.scrollDirection = "down" then some e.currentScroll
          else s.dockStartScroll }
    else s
  if !e.currentlyDocked && s1.isDocked then { s1 with isDocked := false } else s1

/-!
Layer visibility (slideAnimator.js lines 64-80).
-/

/-- A map layer as `toggleLayerVisibility` sees it: its `title` and
`visible` flag. -/
structure MapLayer where
  title : String
  visible : Bool
deriving Repr, DecidableEq, Inhabited

/-- The `layerVisibility` choreography entry: each list may be absent
(the JS guard `if (layerNames && layerNames.length > 0)`). -/
structure LayerVisibilityData where
  layersOn : Option (List String)
  layersOff : Option (List String)
deriving Repr, DecidableEq, Inhabited

/-- The inner `setLayerVisibility(layerNames, visibility)`: when the list
is present and non-empty, set `visible` on every layer whose title the
list includes; otherwise leave the layers untouched. -/
def setLayerVisibility (layerNames : Option (List String)) (visibility : Bool)
    (mapLayers : List MapLayer) : List MapLayer :=
  match layerNames with
  | none => mapLayers
  | some names =>
      if names.length > 0 then
        mapLayers.map fun mapLayer =>
          if names.contains mapLayer.title then { mapLayer with visible := visibility }
          else mapLayer
      else mapLayers

/-- `toggleLayerVisibility` (slideAnimator.js lines 64-80): the
`layersOn` pass (visibility `true`) runs first, then the `layersOff`
pass (visibility `false`). -/
def toggleLayerVisibility (slideLayerVisibility : LayerVisibilityData)
    (mapLayers : List MapLayer) : List MapLayer :=
  let afterOn := setLayerVisibility slideLayerVisibility.layersOn true mapLayers
  setLayerVisibility slideLayerVisibility.layersOff false afterOn

/-- The effect of one `setLayerVisibility` pass on a single layer: the
layer is touched exactly when the list is present, non-empty, and
includes the layer's title. -/
def layerPass (layerNames : Option (List String)) (visibility : Bool)
    (mapLayer : MapLayer) : MapLayer :=
  match layerNames with
  | none => mapLayer
  | some names =>
      if names.length > 0 ∧ names.contains mapLayer.title then
        { mapLayer with visible := visibility }
      else mapLayer

/-- Whether a title appears in an optional layer-name list. -/
def titleListed (layerNames : Option (List String)) (title : String) : Bool :=
  match layerNames with
  | none => false
  | some names => names.contains title

/-! Theorems. -/

/-- `interp a b 0 = a`. -/
lemma interp_zero (a b : ℚ) : interp a b 0 = a := by
  simp [interp]

/-- `interp a b 1 = b`. -/
lemma interp_one (a b : ℚ) : interp a b 1 = b := by
  simp only [interp, mul_one]
  ring

/-- Claim C1: for every pair of viewpoint descriptors and progress `p`,
`interpolateViewpoint` computes each of rotation, scale, xmin, ymin,
xmax, ymax as `a + (b-a)*p`; at `p = 0` every interpolated field equals
the current viewpoint's value and at `p = 1` every interpolated field
equals the next viewpoint's value, while the spatial reference
(wkid, latestWkid) is copied unchanged from the current viewpoint. -/
theorem interpolateViewpoint_linear_blend (cur next : ViewpointData) (p : ℚ) :
    ((interpolateViewpointData cur next p).rotation
        = cur.rotation + (next.rotation - cur.rotation) * p
      ∧ (interpolateViewpointData cur next p).scale
        = cur.scale + (next.scale - cur.scale) * p
      ∧ (interpolateViewpointData cur next p).targetGeometry.xmin
        = cur.targetGeometry.xmin + (next.targetGeometry.xmin - cur.targetGeometry.xmin) * p
      ∧ (interpolateViewpointData cur next p).targetGeometry.ymin
        = cur.targetGeometry.ymin + (next.targetGeometry.ymin - cur.targetGeometry.ymin) * p
      ∧ (interpolateViewpointData cur next p).targetGeometry.xmax
        = cur.targetGeometry.xmax + (next.targetGeometry.xmax - cur.targetGeometry.xmax) * p
      ∧ (interpolateViewpointData cur next p).targetGeometry.ymax
        = cur.targetGeometry.ymax + (next.targetGeometry.ymax - cur.targetGeometry.ymax) * p)
    ∧ (interpolateViewpointData cur next p).targetGeometry.spatialReference
        = cur.targetGeometry.spatialReference
    ∧ ((interpolateViewpointData cur next 0).rotation = cur.rotation
      ∧ (interpolateViewpointData cur next 0).scale = cur.scale
      ∧ (interpolateViewpointData cur next 0).targetGeometry.xmin = cur.targetGeometry.xmin
      ∧ (interpolateViewpointData cur next 0).targetGeometry.ymin = cur.targetGeometry.ymin
      ∧ (interpolateViewpointData cur next 0).targetGeometry.xmax = cur.targetGeometry.xmax
      ∧ (interpolateViewpointData cur next 0).targetGeometry.ymax = cur.targetGeometry.ymax)
    ∧ ((interpolateViewpointData cur next 1).rotation = next.rotation
      ∧ (interpolateViewpointData cur next 1).scale = next.scale
      ∧ (interpolateViewpointData cur next 1).targetGeometry.xmin = next.targetGeometry.xmin
      ∧ (interpolateViewpointData cur next 1).targetGeometry.ymin = next.targetGeometry.ymin
      ∧ (interpolateViewpointData cur next 1).targetGeometry.xmax = next.targetGeometry.xmax
      ∧ (interpolateViewpointData cur next 1).targetGeometry.ymax = next.targetGeometry.ymax) := by
  refine ⟨⟨rfl, rfl, rfl, rfl, rfl, rfl⟩, rfl,
    ⟨?_, ?_, ?_, ?_, ?_, ?_⟩, ⟨?_, ?_, ?_, ?_, ?_, ?_⟩⟩ <;>
    first
      | exact interp_zero _ _
      | exact interp_one _ _

/-- Claim C9: when the next slide is absent or has no `viewpoint` field,
`interpolateViewpoint` returns without constructing a viewpoint and
without invoking `mapView.goTo` (result `none`), leaving the camera in
whatever state the last applied viewpoint left it. -/
theorem interpolateViewpoint_missing_next_noop (currentViewpoint : ViewpointData)
    (slideNext : Option Slide) (p : ℚ)
    (h : slideNext = none ∨ ∃ s, slideNext = some s ∧ s.viewpoint = none) :
    interpolateViewpoint currentViewpoint slideNext p = none := by
  rcases h with h | ⟨s, rfl, hv⟩
  · subst h; rfl
  · simp [interpolateViewpoint, hv]

/-- Witness for C9 at a concrete input: next slide absent. -/
theorem interpolateViewpoint_missing_next_noop_witness :
    interpolateViewpoint default none 0 = none :=
  interpolateViewpoint_missing_next_noop default none 0 (Or.inl rfl)

/-- Claim C2: for every time window with `start ≤ end`, positive resolved
step size and progress in `[0,1]`, the snapped offset is a multiple of
the step size, is at least the raw interpolated offset, and is the
smallest such multiple; and the end time `interpolateTimeSlider` writes
to the slider's time extent never exceeds the end timestamp. -/
theorem interpolateTimeSlider_ceiling_snap (d : TimeSliderData) (p : ℚ)
    (s : TimeSliderState)
    (hse : d.timeSliderStart ≤ d.timeSliderEnd)
    (hstep : 0 < stepMsOf d) (hp0 : 0 ≤ p) (hp1 : p ≤ 1) :
    (∃ k : ℤ, snappedOffsetOf d p = (k : ℚ) * stepMsOf d)
    ∧ rawOffset d p ≤ snappedOffsetOf d p
    ∧ (∀ k : ℤ, rawOffset d p ≤ (k : ℚ) * stepMsOf d →
        snappedOffsetOf d p ≤ (k : ℚ) * stepMsOf d)
    ∧ ∃ t, (interpolateTimeSlider d p s).1.timeExtentEnd = some t
        ∧ t ≤ d.timeSliderEnd := by
  refine ⟨⟨⌈rawOffset d p / stepMsOf d⌉, rfl⟩, ?_, ?_, ?_⟩
  · exact (div_le_iff₀ hstep).mp (Int.le_ceil _)
  · intro k hk
    have h1 : rawOffset d p / stepMsOf d ≤ (k : ℚ) := (div_le_iff₀ hstep).mpr hk
    have h2 : ⌈rawOffset d p / stepMsOf d⌉ ≤ k := Int.ceil_le.mpr h1
    exact mul_le_mul_of_nonneg_right (by exact_mod_cast h2) hstep.le
  · refine ⟨min (max (d.timeSliderStart + snappedOffsetOf d p) d.timeSliderStart)
      d.timeSliderEnd, ?_, min_le_right _ _⟩
    simp [interpolateTimeSlider, not_le.mpr hstep]

/-- Witness for C2 at a concrete input: window `[0, 10000]` ms, one
`seconds` step, progress `1/2`. -/
theorem interpolateTimeSlider_ceiling_snap_witness :
    ((0 : ℚ) ≤ 10000 ∧ 0 < stepMsOf ⟨0, 10000, 1, "seconds"⟩
      ∧ (0 : ℚ) ≤ 1/2 ∧ (1/2 : ℚ) ≤ 1)
    ∧ ∃ t, (interpolateTimeSlider ⟨0, 10000, 1, "seconds"⟩ (1/2)
        default).1.timeExtentEnd = some t ∧ t ≤ (10000 : ℚ) :=
  ⟨⟨by norm_num, by norm_num [stepMsOf, show unitToMs "seconds" = 1000 from rfl], by norm_num, by norm_num⟩,
   (interpolateTimeSlider_ceiling_snap ⟨0, 10000, 1, "seconds"⟩ (1/2) default
      (by norm_num) (by norm_num [stepMsOf, show unitToMs "seconds" = 1000 from rfl]) (by norm_num) (by norm_num)).2.2.2⟩

/-- Counterexample to claim C3 as stated: with step unit `"fortnights"`
(unrecognized, so the step resolves to `0`) the function leaves the
slider untouched — playback keeps running and the visible end-time
extent is not set to the clamped time `min (interp 0 100 (1/2)) 100 =
50`. -/
theorem interpolateTimeSlider_zero_step_cex :
    (interpolateTimeSlider ⟨0, 100, 1, "fortnights"⟩ (1/2)
        ⟨some 7, some 7, true⟩).1.playing = true
    ∧ (interpolateTimeSlider ⟨0, 100, 1, "fortnights"⟩ (1/2)
        ⟨some 7, some 7, true⟩).1.timeExtentEnd
      ≠ some (min (interp 0 100 (1/2)) 100) := by
  norm_num [interpolateTimeSlider, stepMsOf, show unitToMs "fortnights" = 0 from rfl, interp]

/-- Claim C3 (amended): when the step size resolves to zero or negative
(e.g. an unrecognized unit), `interpolateTimeSlider` skips snapping and
returns the interpolated time clamped to the end bound, but leaves the
slider state entirely unchanged — it neither sets the visible end-time
extent nor halts playback. -/
theorem interpolateTimeSlider_zero_step (d : TimeSliderData) (p : ℚ)
    (s : TimeSliderState) (hstep : stepMsOf d ≤ 0) :
    (interpolateTimeSlider d p s).1 = s
    ∧ (interpolateTimeSlider d p s).2
      = some (min (interp d.timeSliderStart d.timeSliderEnd p) d.timeSliderEnd) := by
  constructor <;> simp [interpolateTimeSlider, hstep]

/-- Witness for amended C3 at a concrete input: unrecognized unit
`"fortnights"` resolves the step to `0`. -/
theorem interpolateTimeSlider_zero_step_witness :
    stepMsOf ⟨0, 100, 1, "fortnights"⟩ ≤ 0
    ∧ ((interpolateTimeSlider ⟨0, 100, 1, "fortnights"⟩ (1/2)
          ⟨some 7, some 7, true⟩).1 = ⟨some 7, some 7, true⟩
      ∧ (interpolateTimeSlider ⟨0, 100, 1, "fortnights"⟩ (1/2)
          ⟨some 7, some 7, true⟩).2
        = some (min (interp 0 100 (1/2)) 100)) :=
  ⟨by norm_num [stepMsOf, show unitToMs "fortnights" = 0 from rfl],
   interpolateTimeSlider_zero_step ⟨0, 100, 1, "fortnights"⟩ (1/2)
     ⟨some 7, some 7, true⟩ (by norm_num [stepMsOf, show unitToMs "fortnights" = 0 from rfl])⟩

/-- Claim C4: for every scroll position (including values below the
dock-start offset or beyond the panel's end) and every valid slide
index, `getPanelProgress` returns
`(scrollY - panelStartScroll) / (panelEndScroll - panelStartScroll)`
clamped so the result always lies in `[0,1]`. -/
theorem getPanelProgress_clamped (dockStartScroll : ℚ) (panels : List Panel)
    (currentSlide : Nat) (scrollY : ℚ) (h : currentSlide < panels.length) :
    getPanelProgress dockStartScroll panels currentSlide scrollY
      = max 0 (min 1
          ((scrollY - (getPanelScrollBounds dockStartScroll panels currentSlide).1)
            / ((getPanelScrollBounds dockStartScroll panels currentSlide).2
              - (getPanelScrollBounds dockStartScroll panels currentSlide).1)))
    ∧ 0 ≤ getPanelProgress dockStartScroll panels currentSlide scrollY
    ∧ getPanelProgress dockStartScroll panels currentSlide scrollY ≤ 1 :=
  ⟨rfl, le_max_left _ _, max_le (by norm_num) (min_le_left _ _)⟩

/-- Witness for C4 at a concrete input: one panel of height 10, scroll
position far past the panel end. -/
theorem getPanelProgress_clamped_witness :
    0 < ([⟨false, false, 10, 0, 0, 0⟩] : List Panel).length
    ∧ (0 ≤ getPanelProgress 0 [⟨false, false, 10, 0, 0, 0⟩] 0 9999
      ∧ getPanelProgress 0 [⟨false, false, 10, 0, 0, 0⟩] 0 9999 ≤ 1) :=
  ⟨by norm_num,
   (getPanelProgress_clamped 0 [⟨false, false, 10, 0, 0, 0⟩] 0 9999 (by norm_num)).2⟩

/-- The docking-observer callback never writes `scrollDirection`. -/
lemma dockingObserverStep_scrollDirection (s : DockState) (e : DockEvent) :
    (dockingObserverStep s e).scrollDirection = s.scrollDirection := by
  rcases s with ⟨dk, ds, dir⟩
  rcases e with ⟨cd, cs⟩
  cases cd <;> cases dk <;> by_cases hdir : dir = "down" <;>
    simp [dockingObserverStep, hdir]

/-- When the tracked direction is not `"down"`, no callback firing can
change the stored dock-start offset. -/
lemma dockingObserverStep_dockStart_of_ne (s : DockState) (e : DockEvent)
    (h : s.scrollDirection ≠ "down") :
    (dockingObserverStep s e).dockStartScroll = s.dockStartScroll := by
  rcases s with ⟨dk, ds, dir⟩
  rcases e with ⟨cd, cs⟩
  cases cd <;> cases dk <;> simp_all [dockingObserverStep]

/-- Claim C7: in the docking observer's step relation the dock-start
scroll offset is assigned the current scroll position exactly on a
transition from undocked to docked while the tracked scroll direction is
`"down"`; a docking transition while the direction is `"up"` leaves the
stored offset unchanged, and over any sequence of docking/undocking
events fired while the direction stays `"up"` the offset never
changes. -/
theorem dockingObserver_capture_policy (s : DockState) (e : DockEvent)
    (events : List DockEvent) :
    ((dockingObserverStep s e).dockStartScroll
      = if e.currentlyDocked = true ∧ s.isDocked = false ∧ s.scrollDirection = "down"
        then some e.currentScroll
        else s.dockStartScroll)
    ∧ (s.scrollDirection = "up" →
        (events.foldl dockingObserverStep s).dockStartScroll = s.dockStartScroll) := by
  constructor
  · rcases s with ⟨dk, ds, dir⟩
    rcases e with ⟨cd, cs⟩
    cases cd <;> cases dk <;> by_cases hdir : dir = "down" <;>
      simp [dockingObserverStep, hdir]
  · intro hup
    induction events generalizing s with
    | nil => rfl
    | cons e' es ih =>
        rw [List.foldl_cons]
        rw [ih (dockingObserverStep s e')
          (by rw [dockingObserverStep_scrollDirection]; exact hup)]
        exact dockingObserverStep_dockStart_of_ne s e' (by rw [hup]; decide)

/-- Witness for C7 at a concrete input: a docking event while scrolling
up leaves the offset unchanged across the whole event sequence. -/
theorem dockingObserver_capture_policy_witness :
    (⟨false, some 3, "up"⟩ : DockState).scrollDirection = "up"
    ∧ ([⟨true, 42⟩, ⟨false, 50⟩, ⟨true, 60⟩].foldl dockingObserverStep
        ⟨false, some 3, "up"⟩).dockStartScroll = some 3 :=
  ⟨rfl,
   (dockingObserver_capture_policy ⟨false, some 3, "up"⟩ ⟨true, 42⟩
      [⟨true, 42⟩, ⟨false, 50⟩, ⟨true, 60⟩]).2 rfl⟩

/-- The scroll dispatcher's table registers a handler exactly for the
keys `"viewpoint"` and `"timeSlider"`. -/
lemma scrollChoreographyHandlers_isSome {σ : Type}
    (hViewpoint hTimeSlider : σ → σ × Bool) (key : String) :
    (scrollChoreographyHandlers hViewpoint hTimeSlider key).isSome
      = (key == "viewpoint" || key == "timeSlider") := by
  unfold scrollChoreographyHandlers
  by_cases h1 : key = "viewpoint" <;> by_cases h2 : key = "timeSlider" <;>
    simp [h1, h2]

/-- The slide dispatcher's table registers a handler exactly for the
keys `"viewpoint"`, `"timeSlider"`, `"layerVisibility"` and
`"trackRenderer"`. -/
lemma slideChoreographyHandlers_isSome {σ : Type}
    (hViewpoint hTimeSlider hLayerVisibility hTrackRenderer : σ → σ × Bool)
    (key : String) :
    (slideChoreographyHandlers hViewpoint hTimeSlider hLayerVisibility
        hTrackRenderer key).isSome
      = (key == "viewpoint" || key == "timeSlider"
          || key == "layerVisibility" || key == "trackRenderer") := by
  unfold slideChoreographyHandlers
  by_cases h1 : key = "viewpoint" <;> by_cases h2 : key = "timeSlider" <;>
    by_cases h3 : key = "layerVisibility" <;> by_cases h4 : key = "trackRenderer" <;>
      simp [h1, h2, h3, h4]

/-- Membership in `NON_EMBED_EXCLUDE_KEYS` as a boolean test. -/
lemma NON_EMBED_EXCLUDE_KEYS_mem (key : String) :
    NON_EMBED_EXCLUDE_KEYS.contains key
      = (key == "viewpoint" || key == "timeSlider") := by
  by_cases h1 : key = "viewpoint" <;> by_cases h2 : key = "timeSlider" <;>
    simp [NON_EMBED_EXCLUDE_KEYS, h1, h2]

/-- Unfolding the scroll dispatcher's fold: the invoked-key list grows by
exactly the keys carrying a registered handler, regardless of what any
handler does to the context or whether it throws. -/
lemma scrollAnimation_foldl_invoked {σ : Type}
    (hViewpoint hTimeSlider : σ → σ × Bool) (keys : List String)
    (st : σ) (acc : List String) :
    (keys.foldl (scrollDispatchStep hViewpoint hTimeSlider) (st, acc)).2
      = acc ++ keys.filter
          (fun key => (scrollChoreographyHandlers hViewpoint hTimeSlider key).isSome) := by
  induction keys generalizing st acc with
  | nil => simp
  | cons k ks ih =>
      simp only [List.foldl_cons, List.filter_cons]
      cases hk : scrollChoreographyHandlers hViewpoint hTimeSlider k with
      | none => simp [scrollDispatchStep, hk, ih]
      | some handler => simp [scrollDispatchStep, hk, ih]

/-- The keys `scrollAnimation` dispatches are exactly the slide's keys
with a registered handler, independent of handler behaviour. -/
lemma scrollAnimation_invoked {σ : Type}
    (hViewpoint hTimeSlider : σ → σ × Bool) (keys : List String) (st : σ) :
    (scrollAnimation hViewpoint hTimeSlider keys st).2
      = keys.filter
          (fun key => (scrollChoreographyHandlers hViewpoint hTimeSlider key).isSome) := by
  unfold scrollAnimation
  rw [scrollAnimation_foldl_invoked]
  rw [List.nil_append, List.filter_filter]
  exact List.filter_congr fun a _ => Bool.and_self _

/-- Unfolding the slide dispatcher's fold: the invoked-key list grows by
exactly the registered keys not excluded by the embedded filter,
regardless of what any handler does or whether it throws. -/
lemma slideAnimation_foldl_invoked {σ : Type}
    (hViewpoint hTimeSlider hLayerVisibility hTrackRenderer : σ → σ × Bool)
    (embedded : Bool) (keys : List String) (st : σ) (acc : List String) :
    (keys.foldl
        (slideDispatchStep hViewpoint hTimeSlider hLayerVisibility hTrackRenderer embedded)
        (st, acc)).2
      = acc ++ keys.filter (fun key =>
          (slideChoreographyHandlers hViewpoint hTimeSlider hLayerVisibility
              hTrackRenderer key).isSome
            && !(embedded && NON_EMBED_EXCLUDE_KEYS.contains key)) := by
  induction keys generalizing st acc with
  | nil => simp
  | cons k ks ih =>
      simp only [List.foldl_cons, List.filter_cons]
      cases hk : slideChoreographyHandlers hViewpoint hTimeSlider hLayerVisibility
          hTrackRenderer k with
      | none => simp [slideDispatchStep, hk, ih]
      | some handler =>
          cases embedded with
          | false => simp [slideDispatchStep, hk, ih]
          | true =>
              by_cases hm : k ∈ NON_EMBED_EXCLUDE_KEYS
              · simp [slideDispatchStep, hk, hm, ih]
              · simp [slideDispatchStep, hk, hm, ih]

/-- The keys `slideAnimation` dispatches are exactly the slide's
registered keys surviving the embedded filter, independent of handler
behaviour. -/
lemma slideAnimation_invoked {σ : Type}
    (hViewpoint hTimeSlider hLayerVisibility hTrackRenderer : σ → σ × Bool)
    (keys : List String) (embedded : Bool) (st : σ) :
    (slideAnimation hViewpoint hTimeSlider hLayerVisibility hTrackRenderer
        keys embedded st).2
      = keys.filter (fun key =>
          (slideChoreographyHandlers hViewpoint hTimeSlider hLayerVisibility
              hTrackRenderer key).isSome
            && !(embedded && NON_EMBED_EXCLUDE_KEYS.contains key)) := by
  unfold slideAnimation
  rw [slideAnimation_foldl_invoked, List.nil_append]

/-- Claim C5: for every key other than the registered choreography keys
(`viewpoint`, `timeSlider`, `layerVisibility`, `trackRenderer`) neither
dispatcher invokes a handler for it — unknown keys are silently skipped
(both dispatchers are total functions, so no exception escapes). -/
theorem dispatch_skips_unknown_keys {σ : Type}
    (hViewpoint hTimeSlider hLayerVisibility hTrackRenderer : σ → σ × Bool)
    (keys : List String) (embedded : Bool) (st st' : σ) (key : String)
    (h : key ∉ (["viewpoint", "timeSlider", "layerVisibility", "trackRenderer"] : List String)) :
    key ∉ (scrollAnimation hViewpoint hTimeSlider keys st).2
    ∧ key ∉ (slideAnimation hViewpoint hTimeSlider hLayerVisibility hTrackRenderer
        keys embedded st').2 := by
  simp only [List.mem_cons, List.not_mem_nil, or_false, not_or] at h
  obtain ⟨h1, h2, h3, h4⟩ := h
  constructor
  · rw [scrollAnimation_invoked]
    intro hmem
    have hp := (List.mem_filter.mp hmem).2
    rw [scrollChoreographyHandlers_isSome] at hp
    simp [h1, h2] at hp
  · rw [slideAnimation_invoked]
    intro hmem
    have hp := (List.mem_filter.mp hmem).2
    rw [Bool.and_eq_true, slideChoreographyHandlers_isSome] at hp
    simp [h1, h2, h3, h4] at hp

/-- Witness for C5 at a concrete input: the unknown key `"banana"` is
never dispatched. -/
theorem dispatch_skips_unknown_keys_witness :
    ("banana" ∉ (["viewpoint", "timeSlider", "layerVisibility", "trackRenderer"] : List String))
    ∧ "banana" ∉ (scrollAnimation (fun _ : Unit => ((), false)) (fun _ => ((), false))
        ["banana", "viewpoint"] ()).2
    ∧ "banana" ∉ (slideAnimation (fun _ : Unit => ((), false)) (fun _ => ((), false))
        (fun _ => ((), false)) (fun _ => ((), false)) ["banana", "viewpoint"] true ()).2 :=
  ⟨by decide,
   (dispatch_skips_unknown_keys (fun _ : Unit => ((), false)) (fun _ => ((), false))
      (fun _ => ((), false)) (fun _ => ((), false)) ["banana", "viewpoint"] true () ()
      "banana" (by decide)).1,
   (dispatch_skips_unknown_keys (fun _ : Unit => ((), false)) (fun _ => ((), false))
      (fun _ => ((), false)) (fun _ => ((), false)) ["banana", "viewpoint"] true () ()
      "banana" (by decide)).2⟩

/-- Claim C6: for every slide-data key list and any handlers — including
handlers that throw on every context state — each dispatcher still
invokes exactly the registered keys of the slide, in order: a thrown
exception is caught inside the dispatch loop and the handlers for all
remaining keys in the same call are still invoked. -/
theorem dispatch_isolates_handler_errors {σ : Type}
    (hViewpoint hTimeSlider hLayerVisibility hTrackRenderer : σ → σ × Bool)
    (keys : List String) (embedded : Bool) (st st' : σ) :
    (scrollAnimation hViewpoint hTimeSlider keys st).2
      = keys.filter (fun key => key == "viewpoint" || key == "timeSlider")
    ∧ (slideAnimation hViewpoint hTimeSlider hLayerVisibility hTrackRenderer
        keys embedded st').2
      = keys.filter (fun key =>
          (key == "viewpoint" || key == "timeSlider"
            || key == "layerVisibility" || key == "trackRenderer")
          && !(embedded && (key == "viewpoint" || key == "timeSlider"))) := by
  constructor
  · rw [scrollAnimation_invoked]
    exact List.filter_congr fun a _ => scrollChoreographyHandlers_isSome _ _ _
  · rw [slideAnimation_invoked]
    refine List.filter_congr fun a _ => ?_
    rw [slideChoreographyHandlers_isSome, NON_EMBED_EXCLUDE_KEYS_mem]

/-- Claim C8: with `embedded = true` the `viewpoint` and `timeSlider`
handlers are never dispatched by `slideAnimation` while the
`layerVisibility` and `trackRenderer` handlers still run whenever their
keys are present; with `embedded = false` no registered key is
suppressed. -/
theorem slideAnimation_embedded_suppression {σ : Type}
    (hViewpoint hTimeSlider hLayerVisibility hTrackRenderer : σ → σ × Bool)
    (keys : List String) (st : σ) :
    ("viewpoint" ∉ (slideAnimation hViewpoint hTimeSlider hLayerVisibility
        hTrackRenderer keys true st).2
      ∧ "timeSlider" ∉ (slideAnimation hViewpoint hTimeSlider hLayerVisibility
        hTrackRenderer keys true st).2
      ∧ ("layerVisibility" ∈ keys →
          "layerVisibility" ∈ (slideAnimation hViewpoint hTimeSlider hLayerVisibility
            hTrackRenderer keys true st).2)
      ∧ ("trackRenderer" ∈ keys →
          "trackRenderer" ∈ (slideAnimation hViewpoint hTimeSlider hLayerVisibility
            hTrackRenderer keys true st).2))
    ∧ (slideAnimation hViewpoint hTimeSlider hLayerVisibility hTrackRenderer
        keys false st).2
      = keys.filter (fun key =>
          key == "viewpoint" || key == "timeSlider"
            || key == "layerVisibility" || key == "trackRenderer") := by
  refine ⟨⟨?_, ?_, ?_, ?_⟩, ?_⟩
  · rw [slideAnimation_invoked]
    intro hmem
    have hp := (List.mem_filter.mp hmem).2
    rw [slideChoreographyHandlers_isSome, NON_EMBED_EXCLUDE_KEYS_mem] at hp
    simp at hp
  · rw [slideAnimation_invoked]
    intro hmem
    have hp := (List.mem_filter.mp hmem).2
    rw [slideChoreographyHandlers_isSome, NON_EMBED_EXCLUDE_KEYS_mem] at hp
    simp at hp
  · intro hk
    rw [slideAnimation_invoked]
    refine List.mem_filter.mpr ⟨hk, ?_⟩
    rw [slideChoreographyHandlers_isSome, NON_EMBED_EXCLUDE_KEYS_mem]
    decide
  · intro hk
    rw [slideAnimation_invoked]
    refine List.mem_filter.mpr ⟨hk, ?_⟩
    rw [slideChoreographyHandlers_isSome, NON_EMBED_EXCLUDE_KEYS_mem]
    decide
  · rw [slideAnimation_invoked]
    refine List.filter_congr fun a _ => ?_
    rw [slideChoreographyHandlers_isSome, NON_EMBED_EXCLUDE_KEYS_mem]
    simp

/-- Witness for C8 at a concrete input: a slide carrying all four keys in
embedded mode. -/
theorem slideAnimation_embedded_suppression_witness :
    "layerVisibility" ∈ (["viewpoint", "timeSlider", "layerVisibility", "trackRenderer"] : List String)
    ∧ "trackRenderer" ∈ (["viewpoint", "timeSlider", "layerVisibility", "trackRenderer"] : List String)
    ∧ ("viewpoint" ∉ (slideAnimation (fun _ : Unit => ((), false)) (fun _ => ((), false))
        (fun _ => ((), false)) (fun _ => ((), false))
        ["viewpoint", "timeSlider", "layerVisibility", "trackRenderer"] true ()).2
      ∧ "layerVisibility" ∈ (slideAnimation (fun _ : Unit => ((), false)) (fun _ => ((), false))
        (fun _ => ((), false)) (fun _ => ((), false))
        ["viewpoint", "timeSlider", "layerVisibility", "trackRenderer"] true ()).2) :=
  ⟨by decide, by decide,
   (slideAnimation_embedded_suppression (fun _ : Unit => ((), false)) (fun _ => ((), false))
      (fun _ => ((), false)) (fun _ => ((), false))
      ["viewpoint", "timeSlider", "layerVisibility", "trackRenderer"] ()).1.1,
   (slideAnimation_embedded_suppression (fun _ : Unit => ((), false)) (fun _ => ((), false))
      (fun _ => ((), false)) (fun _ => ((), false))
      ["viewpoint", "timeSlider", "layerVisibility", "trackRenderer"] ()).1.2.2.1
     (by decide)⟩

/-- A list that contains an element is non-empty. -/
lemma contains_length_pos {names : List String} {t : String}
    (h : names.contains t = true) : names.length > 0 := by
  cases names with
  | nil => simp [List.contains] at h
  | cons a as => simp

/-- One `setLayerVisibility` pass acts pointwise as `layerPass`. -/
lemma setLayerVisibility_eq_map (layerNames : Option (List String))
    (visibility : Bool) (mapLayers : List MapLayer) :
    setLayerVisibility layerNames visibility mapLayers
      = mapLayers.map (layerPass layerNames visibility) := by
  cases layerNames with
  | none =>
      have h1 : mapLayers.map (layerPass none visibility) = mapLayers.map id :=
        List.map_congr_left fun l _ => rfl
      simp [setLayerVisibility, h1]
  | some names =>
      by_cases h : names.length > 0
      · simp only [setLayerVisibility, if_pos h]
        exact List.map_congr_left fun l _ => by simp [layerPass, h]
      · simp only [setLayerVisibility, if_neg h]
        have h1 : mapLayers.map (layerPass (some names) visibility) = mapLayers.map id :=
          List.map_congr_left fun l _ => by simp [layerPass, h]
        simp [h1]

/-- `toggleLayerVisibility` acts pointwise: the on pass first, then the
off pass. -/
lemma toggleLayerVisibility_eq_map (d : LayerVisibilityData)
    (mapLayers : List MapLayer) :
    toggleLayerVisibility d mapLayers
      = mapLayers.map (fun l => layerPass d.layersOff false (layerPass d.layersOn true l)) := by
  unfold toggleLayerVisibility
  rw [setLayerVisibility_eq_map, setLayerVisibility_eq_map, List.map_map]
  rfl

/-- Claim C10: `toggleLayerVisibility` applies the `layersOn` pass before
the `layersOff` pass, so a layer whose title appears in both lists ends
the call with `visible = false`, and a layer whose title appears in
neither list keeps its visibility (indeed its whole record)
unchanged. -/
theorem toggleLayerVisibility_on_then_off (d : LayerVisibilityData)
    (mapLayers : List MapLayer) (l : MapLayer) :
    (toggleLayerVisibility d mapLayers
      = mapLayers.map (fun x => layerPass d.layersOff false (layerPass d.layersOn true x)))
    ∧ (titleListed d.layersOn l.title = true → titleListed d.layersOff l.title = true →
        (layerPass d.layersOff false (layerPass d.layersOn true l)).visible = false)
    ∧ (titleListed d.layersOn l.title = false → titleListed d.layersOff l.title = false →
        layerPass d.layersOff false (layerPass d.layersOn true l) = l) := by
  refine ⟨toggleLayerVisibility_eq_map d mapLayers, ?_, ?_⟩
  · intro hon hoff
    cases hdon : d.layersOn with
    | none => rw [hdon] at hon; simp [titleListed] at hon
    | some onN =>
        rw [hdon] at hon; simp only [titleListed] at hon
        cases hdoff : d.layersOff with
        | none => rw [hdoff] at hoff; simp [titleListed] at hoff
        | some offN =>
            rw [hdoff] at hoff; simp only [titleListed] at hoff
            have hlon := contains_length_pos hon
            have hloff := contains_length_pos hoff
            have hmon : l.title ∈ onN := by simpa using hon
            have hmoff : l.title ∈ offN := by simpa using hoff
            simp [layerPass, hlon, hloff, hmon, hmoff]
  · intro hon hoff
    cases hdon : d.layersOn with
    | none =>
        cases hdoff : d.layersOff with
        | none => simp [layerPass]
        | some offN =>
            rw [hdoff] at hoff; simp only [titleListed] at hoff
            have hmoff : l.title ∉ offN := by simpa using hoff
            simp [layerPass, hmoff]
    | some onN =>
        rw [hdon] at hon; simp only [titleListed] at hon
        have hmon : l.title ∉ onN := by simpa using hon
        cases hdoff : d.layersOff with
        | none => simp [layerPass, hmon]
        | some offN =>
            rw [hdoff] at hoff; simp only [titleListed] at hoff
            have hmoff : l.title ∉ offN := by simpa using hoff
            simp [layerPass, hmon, hmoff]

/-- Witness for C10 at a concrete input: layer `"b"` listed in both
passes ends invisible. -/
theorem toggleLayerVisibility_on_then_off_witness :
    titleListed (some ["a", "b"]) "b" = true
    ∧ titleListed (some ["b", "c"]) "b" = true
    ∧ (layerPass (some ["b", "c"]) false
        (layerPass (some ["a", "b"]) true ⟨"b", true⟩)).visible = false :=
  ⟨by decide, by decide,
   (toggleLayerVisibility_on_then_off ⟨some ["a", "b"], some ["b", "c"]⟩ []
      ⟨"b", true⟩).2.1 (by decide) (by decide)⟩

end ScrollyStory
